import Mathlib

/-!
# Verification of the atomic402 Payment-Gated Access Protocol

Shallow embedding of the atomic402 repository:

* `move/sources/content_access.move` — the on-ledger state model
  (`ContentItem`, `AccessReceipt`, `purchase_and_grant_access`).
* `packages/sdk/src/server.ts` — `X402Server`: PTB construction
  (`buildPurchaseTransaction`), 402 responses (`generateX402Response`),
  dual-signature submission (`sponsorAndExecute`), and access resolution
  (`hasAccess`).
* `packages/sdk/src/client.ts` — `X402Client`: access resolution
  (`checkAccess`, `getAccessReceipts`) and confirmation polling
  (`waitForTransaction`).

Machine integers of the source (`u64` prices, balances) are modelled as
`Nat`; the source never subtracts or overflows them.  Move aborts and
thrown TypeScript errors are modelled with `Except`; the ledger substrate's
all-or-nothing transaction semantics is made explicit by `runTx`, which
yields the untouched pre-state alongside the abort code whenever the
transaction aborts.  External collaborators (the Sui RPC client, the
`tx.build` serializer) are passed in as explicit parameters.
-/

/-! ## Ledger state model — `content_access.move` -/

/-- Abort code `EInsufficientPayment` of `content_access.move`. -/
def EInsufficientPayment : Nat := 0

/-- Abort code `EContentNotFound` of `content_access.move` (declared, unused). -/
def EContentNotFound : Nat := 1

/-- `ContentItem` of `content_access.move`: a purchasable unit.  The `UID`
is modelled as a `Nat` identity; `vector<u8>` fields as `List Nat`. -/
structure ContentItem where
  id : Nat
  title : List Nat
  description : List Nat
  price : Nat
  content_url : List Nat
  creator : Nat
deriving DecidableEq, Repr

/-- `AccessReceipt` of `content_access.move`: proof of purchase. -/
structure AccessReceipt where
  id : Nat
  content_id : Nat
  content_title : List Nat
  price_paid : Nat
  purchaser : Nat
  timestamp : Nat
deriving DecidableEq, Repr

/-- `Coin<SUI>`: only its `value` matters to the contract. -/
structure Coin where
  value : Nat
deriving DecidableEq, Repr

/-- `sui::clock::Clock`, read through `timestamp_ms`. -/
structure Clock where
  timestamp_ms : Nat
deriving DecidableEq, Repr

/-- `TxContext`: the ambient caller identity (`ctx.sender()`). -/
structure TxContext where
  sender : Nat
deriving DecidableEq, Repr

/-- The `ContentPurchased` event emitted by `purchase_and_grant_access`. -/
structure ContentPurchased where
  content_id : Nat
  receipt_id : Nat
  purchaser : Nat
  price_paid : Nat
  timestamp : Nat
deriving DecidableEq, Repr

/-- The ledger state visible to the contract: owned coin objects, owned
`AccessReceipt` objects (each paired with its owner address), the emitted
event log, and a fresh-`UID` counter for `object::new`. -/
structure LedgerState where
  coins : List (Nat × Coin)
  receipts : List (Nat × AccessReceipt)
  events : List ContentPurchased
  nextId : Nat
deriving DecidableEq, Repr

/-- Total value of the coins in `coins` owned by address `a`. -/
def coinSum (coins : List (Nat × Coin)) (a : Nat) : Nat :=
  ((coins.filter fun oc => oc.1 == a).map fun oc => oc.2.value).sum

/-- Total SUI held by address `a` in state `s`. -/
def balanceOf (s : LedgerState) (a : Nat) : Nat :=
  coinSum s.coins a

/-- The `AccessReceipt` objects owned by address `a` in state `s`. -/
def ownedReceipts (s : LedgerState) (a : Nat) : List AccessReceipt :=
  (s.receipts.filter fun r => r.1 == a).map fun r => r.2

/-- `purchase_and_grant_access` of `content_access.move`, as a state
transition.  Mirrors the source order: assert the payment covers the
price, transfer the whole payment coin to the creator, mint the receipt
with a fresh id, emit `ContentPurchased`, transfer the receipt to the
sender.  A failed assert is a Move abort: `Except.error` with the code. -/
def purchase_and_grant_access (content : ContentItem) (payment : Coin)
    (clock : Clock) (ctx : TxContext) (s : LedgerState) :
    Except Nat LedgerState :=
  let price := content.price
  if payment.value ≥ price then
    let s1 : LedgerState := { s with coins := (content.creator, payment) :: s.coins }
    let receipt_id := s1.nextId
    let receipt : AccessReceipt :=
      { id := receipt_id
        content_id := content.id
        content_title := content.title
        price_paid := price
        purchaser := ctx.sender
        timestamp := clock.timestamp_ms }
    let ev : ContentPurchased :=
      { content_id := content.id
        receipt_id := receipt_id
        purchaser := ctx.sender
        price_paid := price
        timestamp := clock.timestamp_ms }
    Except.ok { s1 with
                nextId := s1.nextId + 1
                events := ev :: s1.events
                receipts := (ctx.sender, receipt) :: s1.receipts }
  else
    Except.error EInsufficientPayment

/-- The substrate's all-or-nothing transaction semantics: an aborting
transaction leaves the pre-state untouched and reports the abort code. -/
def runTx (txn : LedgerState → Except Nat LedgerState) (s : LedgerState) :
    LedgerState × Option Nat :=
  match txn s with
  | Except.ok s2 => (s2, none)
  | Except.error e => (s, some e)

/-! ## Theorems for the ledger state model -/

lemma coinSum_cons_self (coins : List (Nat × Coin)) (a : Nat) (c : Coin) :
    coinSum ((a, c) :: coins) a = coinSum coins a + c.value := by
  simp [coinSum, List.filter_cons]
  omega

lemma coinSum_cons_other (coins : List (Nat × Coin)) (a b : Nat) (c : Coin)
    (h : b ≠ a) :
    coinSum ((a, c) :: coins) b = coinSum coins b := by
  have hne : ¬ (((a, c).1 == b) = true) := by
    simp
    exact Ne.symm h
  simp [coinSum, List.filter_cons, hne]

/-- The receipt minted by a successful `purchase_and_grant_access`. -/
def mintedReceipt (content : ContentItem) (clock : Clock) (ctx : TxContext)
    (s : LedgerState) : AccessReceipt :=
  { id := s.nextId
    content_id := content.id
    content_title := content.title
    price_paid := content.price
    purchaser := ctx.sender
    timestamp := clock.timestamp_ms }

/-- The post-state of a successful `purchase_and_grant_access`, spelled
out. -/
def purchasePost (content : ContentItem) (payment : Coin) (clock : Clock)
    (ctx : TxContext) (s : LedgerState) : LedgerState :=
  { coins := (content.creator, payment) :: s.coins
    receipts := (ctx.sender, mintedReceipt content clock ctx s) :: s.receipts
    events := ⟨content.id, s.nextId, ctx.sender, content.price,
      clock.timestamp_ms⟩ :: s.events
    nextId := s.nextId + 1 }

lemma purchase_ok (content : ContentItem) (payment : Coin) (clock : Clock)
    (ctx : TxContext) (s : LedgerState)
    (hge : payment.value ≥ content.price) :
    purchase_and_grant_access content payment clock ctx s =
      Except.ok (purchasePost content payment clock ctx s) := by
  simp [purchase_and_grant_access, hge, purchasePost, mintedReceipt]

lemma runTx_purchase_ok (content : ContentItem) (payment : Coin)
    (clock : Clock) (ctx : TxContext) (s : LedgerState)
    (hge : payment.value ≥ content.price) :
    runTx (purchase_and_grant_access content payment clock ctx) s =
      (purchasePost content payment clock ctx s, none) := by
  simp [runTx, purchase_ok content payment clock ctx s hge]

/-- C1: a payment strictly below `content.price` makes
`purchase_and_grant_access` abort with `EInsufficientPayment` and the whole
transaction roll back as a unit — the post-state is the pre-state, so the
creator's balance is unchanged and the buyer owns no new `AccessReceipt`;
a payment of at least `content.price` succeeds, and exactly one
`AccessReceipt` is minted per successful call. -/
theorem purchase_atomicity (content : ContentItem) (payment : Coin)
    (clock : Clock) (ctx : TxContext) (s : LedgerState) :
    (payment.value < content.price →
      runTx (purchase_and_grant_access content payment clock ctx) s
          = (s, some EInsufficientPayment) ∧
      balanceOf (runTx (purchase_and_grant_access content payment clock ctx) s).1
          content.creator = balanceOf s content.creator ∧
      ownedReceipts (runTx (purchase_and_grant_access content payment clock ctx) s).1
          ctx.sender = ownedReceipts s ctx.sender) ∧
    (content.price ≤ payment.value →
      ∃ s2, runTx (purchase_and_grant_access content payment clock ctx) s
          = (s2, none) ∧
        s2.receipts.length = s.receipts.length + 1) := by
  constructor
  · intro h
    have hlt : ¬ payment.value ≥ content.price := by omega
    simp [runTx, purchase_and_grant_access, hlt]
  · intro h
    have hge : payment.value ≥ content.price := h
    exact ⟨purchasePost content payment clock ctx s,
      runTx_purchase_ok content payment clock ctx s hge,
      by simp [purchasePost]⟩

/-- Closed witness for `purchase_atomicity`: a content item priced 5, one
underpayment (3) and one exact payment (5). -/
theorem purchase_atomicity_witness :
    runTx (purchase_and_grant_access
        ⟨1, [104], [], 5, [], 7⟩ ⟨3⟩ ⟨1000⟩ ⟨9⟩) ⟨[], [], [], 0⟩
      = (⟨[], [], [], 0⟩, some EInsufficientPayment) ∧
    ∃ s2, runTx (purchase_and_grant_access
        ⟨1, [104], [], 5, [], 7⟩ ⟨5⟩ ⟨1000⟩ ⟨9⟩) ⟨[], [], [], 0⟩
      = (s2, none) ∧ s2.receipts.length = 0 + 1 :=
  ⟨((purchase_atomicity ⟨1, [104], [], 5, [], 7⟩ ⟨3⟩ ⟨1000⟩ ⟨9⟩
      ⟨[], [], [], 0⟩).1 (by decide)).1,
   (purchase_atomicity ⟨1, [104], [], 5, [], 7⟩ ⟨5⟩ ⟨1000⟩ ⟨9⟩
      ⟨[], [], [], 0⟩).2 (by decide)⟩

/-- C2: every successful `purchase_and_grant_access` mints a receipt with
`content_id = content.id`, `content_title = content.title`,
`price_paid = content.price` (the item's price, not the payment's value),
`purchaser = ctx.sender`, `timestamp = clock.timestamp_ms`, and the
receipt is transferred to (owned by) the sender. -/
theorem purchase_receipt_fields (content : ContentItem) (payment : Coin)
    (clock : Clock) (ctx : TxContext) (s : LedgerState)
    (h : content.price ≤ payment.value) :
    ∃ s2 r, runTx (purchase_and_grant_access content payment clock ctx) s
        = (s2, none) ∧
      s2.receipts = (ctx.sender, r) :: s.receipts ∧
      r.content_id = content.id ∧
      r.content_title = content.title ∧
      r.price_paid = content.price ∧
      r.purchaser = ctx.sender ∧
      r.timestamp = clock.timestamp_ms := by
  have hge : payment.value ≥ content.price := h
  exact ⟨purchasePost content payment clock ctx s,
    mintedReceipt content clock ctx s,
    runTx_purchase_ok content payment clock ctx s hge,
    rfl, rfl, rfl, rfl, rfl, rfl⟩

/-- Closed witness for `purchase_receipt_fields` at an overpaying call. -/
theorem purchase_receipt_fields_witness :
    ∃ s2 r, runTx (purchase_and_grant_access
        ⟨1, [104], [], 5, [], 7⟩ ⟨8⟩ ⟨1000⟩ ⟨9⟩) ⟨[], [], [], 0⟩
        = (s2, none) ∧
      s2.receipts = (9, r) :: [] ∧
      r.content_id = 1 ∧
      r.content_title = [104] ∧
      r.price_paid = 5 ∧
      r.purchaser = 9 ∧
      r.timestamp = 1000 :=
  purchase_receipt_fields ⟨1, [104], [], 5, [], 7⟩ ⟨8⟩ ⟨1000⟩ ⟨9⟩
    ⟨[], [], [], 0⟩ (by decide)

/-- C3: every successful `purchase_and_grant_access` transfers the entire
supplied payment coin to `content.creator` — the creator's balance grows by
the payment's full value (any excess above `content.price` included), and
no other address's balance changes, so no change is returned to the
sender. -/
theorem purchase_full_payment_to_creator (content : ContentItem)
    (payment : Coin) (clock : Clock) (ctx : TxContext) (s : LedgerState)
    (h : content.price ≤ payment.value) :
    ∃ s2, runTx (purchase_and_grant_access content payment clock ctx) s
        = (s2, none) ∧
      s2.coins = (content.creator, payment) :: s.coins ∧
      balanceOf s2 content.creator = balanceOf s content.creator + payment.value ∧
      ∀ a, a ≠ content.creator → balanceOf s2 a = balanceOf s a := by
  have hge : payment.value ≥ content.price := h
  refine ⟨purchasePost content payment clock ctx s,
    runTx_purchase_ok content payment clock ctx s hge, rfl, ?_, ?_⟩
  · show coinSum ((content.creator, payment) :: s.coins) content.creator = _
    exact coinSum_cons_self s.coins content.creator payment
  · intro a ha
    show coinSum ((content.creator, payment) :: s.coins) a = _
    exact coinSum_cons_other s.coins content.creator a payment ha

/-- Closed witness for `purchase_full_payment_to_creator`: an overpayment
of 8 against price 5 is transferred whole. -/
theorem purchase_full_payment_to_creator_witness :
    ∃ s2, runTx (purchase_and_grant_access
        ⟨1, [104], [], 5, [], 7⟩ ⟨8⟩ ⟨1000⟩ ⟨9⟩) ⟨[], [], [], 0⟩
        = (s2, none) ∧
      s2.coins = (7, ⟨8⟩) :: [] ∧
      balanceOf s2 7 = balanceOf ⟨[], [], [], 0⟩ 7 + 8 ∧
      ∀ a, a ≠ 7 → balanceOf s2 a = balanceOf ⟨[], [], [], 0⟩ a :=
  purchase_full_payment_to_creator ⟨1, [104], [], 5, [], 7⟩ ⟨8⟩ ⟨1000⟩ ⟨9⟩
    ⟨[], [], [], 0⟩ (by decide)

/-! ## Server SDK — `packages/sdk/src/server.ts` -/

/-- `Ed25519Keypair` of the ledger client library: an address
(`toSuiAddress`) and a signing capability (`signTransaction`, returning
the signature string for given transaction bytes). -/
structure Ed25519Keypair where
  address : String
  sign : List Nat → String

/-- `ServerConfig` of `server.ts` (the `suiClient` handle is an external
collaborator and is passed to the operations that use it). -/
structure ServerConfig where
  packageId : String
  sponsorKeypair : Option Ed25519Keypair
  contentModule : Option String

/-- The `X402Server` fields set up by its constructor. -/
structure X402Server where
  packageId : String
  sponsorKeypair : Option Ed25519Keypair
  moduleName : String

/-- `createX402Server` / the `X402Server` constructor:
`moduleName = config.contentModule || "content_access"`. -/
def createX402Server (config : ServerConfig) : X402Server :=
  { packageId := config.packageId
    sponsorKeypair := config.sponsorKeypair
    moduleName := config.contentModule.getD "content_access" }

/-- `PurchaseParams` of `server.ts`. -/
structure PurchaseParams where
  contentObjectId : String
  price : String
  creator : String
  buyerAddress : String
  clockObjectId : Option String
deriving DecidableEq, Repr

/-- An argument of a PTB command: the gas coin, an object reference, or
the result of an earlier command. -/
inductive TxArg where
  | gas : TxArg
  | object : String → TxArg
  | result : Nat → TxArg
deriving DecidableEq, Repr

/-- A PTB command as issued by `server.ts`: `tx.splitCoins` or
`tx.moveCall`. -/
inductive TxCommand where
  | splitCoins : TxArg → List String → TxCommand
  | moveCall : String → List TxArg → TxCommand
deriving DecidableEq, Repr

/-- A `Transaction` under construction: the ordered command list plus the
designated sender and optional gas owner (`setSender` / `setGasOwner`). -/
structure Transaction where
  commands : List TxCommand
  sender : Option String
  gasOwner : Option String
deriving DecidableEq, Repr

/-- `X402Server.buildPurchaseTransaction`: split an exact `price` from the
gas coin, call `purchase_and_grant_access` on the content object with the
split coin and the clock object (default `0x6`), set the sender to the
buyer, and set the gas owner to the sponsor's address exactly when a
sponsor keypair is configured.  Pure: no signing, no ledger mutation. -/
def buildPurchaseTransaction (srv : X402Server) (params : PurchaseParams) :
    Transaction :=
  { commands :=
      [TxCommand.splitCoins TxArg.gas [params.price],
       TxCommand.moveCall
         (srv.packageId ++ "::" ++ srv.moduleName ++ "::purchase_and_grant_access")
         [TxArg.object params.contentObjectId,
          TxArg.result 0,
          TxArg.object (params.clockObjectId.getD "0x6")]]
    sender := some params.buyerAddress
    gasOwner := srv.sponsorKeypair.map fun kp => kp.address }

/-- `ContentMetadata` of `packages/shared/src/types.ts`. -/
structure ContentMetadata where
  id : String
  title : String
  description : String
  price : String
  contentUrl : String
  creator : String
deriving DecidableEq, Repr

/-- The `paymentRequired` payload of an `X402Response`. -/
structure PaymentRequired where
  amount : String
  recipient : String
  transactionBytes : String
  description : String
deriving DecidableEq, Repr

/-- `X402Response` of `packages/shared/src/types.ts`. -/
structure X402Response where
  statusCode : Nat
  message : String
  paymentRequired : PaymentRequired
deriving DecidableEq, Repr

/-- The standard base64 alphabet. -/
def base64Alphabet : List Char :=
  "ABCDEFGHIJKLMNOPQRSTUVWXYZabcdefghijklmnopqrstuvwxyz0123456789+/".toList

/-- The base64 digit for a 6-bit value. -/
def base64Char (n : Nat) : Char :=
  base64Alphabet.getD n 'A'

/-- Base64-encode a byte list, three bytes to four digits, `=`-padded. -/
def base64Chunks : List Nat → List Char
  | [] => []
  | [b0] =>
      [base64Char (b0 / 4), base64Char (b0 % 4 * 16), '=', '=']
  | [b0, b1] =>
      [base64Char (b0 / 4), base64Char (b0 % 4 * 16 + b1 / 16),
       base64Char (b1 % 16 * 4), '=']
  | b0 :: b1 :: b2 :: rest =>
      base64Char (b0 / 4) :: base64Char (b0 % 4 * 16 + b1 / 16) ::
      base64Char (b1 % 16 * 4 + b2 / 64) :: base64Char (b2 % 64) ::
      base64Chunks rest

/-- `Buffer.toString("base64")`. -/
def base64Encode (bytes : List Nat) : String :=
  String.mk (base64Chunks bytes)

/-- Index of a character in a list (0 when absent). -/
def charIndexAux : List Char → Char → Nat → Nat
  | [], _, _ => 0
  | a :: rest, c, i => if a = c then i else charIndexAux rest c (i + 1)

/-- The 6-bit value of a base64 digit. -/
def base64Val (c : Char) : Nat :=
  charIndexAux base64Alphabet c 0

/-- Base64-decode a digit list, four digits to three bytes, honouring
`=`-padding. -/
def base64DecodeChunks : List Char → List Nat
  | c0 :: c1 :: c2 :: c3 :: rest =>
      let v0 := base64Val c0
      let v1 := base64Val c1
      let v2 := base64Val c2
      let v3 := base64Val c3
      if c2 = '=' then [v0 * 4 + v1 / 16]
      else if c3 = '=' then [v0 * 4 + v1 / 16, v1 % 16 * 16 + v2 / 4]
      else (v0 * 4 + v1 / 16) :: (v1 % 16 * 16 + v2 / 4) ::
        (v2 % 4 * 64 + v3) :: base64DecodeChunks rest
  | _ => []

/-- `Buffer.from(s, "base64")`. -/
def base64Decode (s : String) : List Nat :=
  base64DecodeChunks s.toList

/-- The `PurchaseParams` that `generateX402Response` derives from a
`ContentMetadata` and a buyer address (no explicit clock object). -/
def purchaseParamsOf (content : ContentMetadata) (buyerAddress : String) :
    PurchaseParams :=
  { contentObjectId := content.id
    price := content.price
    creator := content.creator
    buyerAddress := buyerAddress
    clockObjectId := none }

/-- `X402Server.generateX402Response`: build the purchase transaction for
the content and buyer, serialize it (`tx.build`, supplied by the external
ledger client as `serialize`), base64-encode the bytes, and wrap them in a
402 payment-required response. -/
def generateX402Response (srv : X402Server)
    (serialize : Transaction → List Nat) (content : ContentMetadata)
    (buyerAddress : String) : X402Response :=
  let tx := buildPurchaseTransaction srv (purchaseParamsOf content buyerAddress)
  let base64Tx := base64Encode (serialize tx)
  { statusCode := 402
    message := "Payment Required"
    paymentRequired :=
      { amount := content.price
        recipient := content.creator
        transactionBytes := base64Tx
        description := "Purchase access to: " ++ content.title } }

/-- The response of `suiClient.executeTransactionBlock` /
`getTransactionBlock`, restricted to the fields the SDK inspects:
`digest` and `effects?.status?.status`. -/
structure SuiTxResponse where
  digest : String
  effectsStatus : Option String
deriving DecidableEq, Repr

/-- `TransactionResult` of `packages/shared/src/types.ts`, with the
opaque `effects` blob restricted to the status the SDK reads from it. -/
structure TransactionResult where
  digest : String
  status : String
  effectsStatus : Option String
deriving DecidableEq, Repr

/-- Failure modes of `sponsorAndExecute`: the guard throw
`"Sponsor keypair required for transaction execution"`
(`SponsorNotConfigured`), or a rethrown ledger-client error. -/
inductive ExecError where
  | SponsorNotConfigured : ExecError
  | LedgerError : String → ExecError
deriving DecidableEq, Repr

/-- A call to `executeTransactionBlock`, as recorded in the submission
log: the raw transaction bytes and the signature list handed to the
ledger. -/
structure Submission where
  txBytes : List Nat
  signatures : List String
deriving DecidableEq, Repr

/-- `X402Server.sponsorAndExecute`: throw if no sponsor keypair is
configured; otherwise decode the base64 transaction bytes, co-sign them
with the sponsor key, and submit bytes plus
`[clientSignature, sponsorSignature]` to the ledger
(`executeTransactionBlock`, supplied as `executeTx`).  The second
component of the result records every submission made to the ledger. -/
def sponsorAndExecute (srv : X402Server)
    (executeTx : List Nat → List String → Except String SuiTxResponse)
    (transactionBytes clientSignature clientPublicKey : String) :
    Except ExecError TransactionResult × List Submission :=
  match srv.sponsorKeypair with
  | none => (Except.error ExecError.SponsorNotConfigured, [])
  | some kp =>
    let txBytes := base64Decode transactionBytes
    let sponsorSig := kp.sign txBytes
    match executeTx txBytes [clientSignature, sponsorSig] with
    | Except.ok result =>
        (Except.ok
          { digest := result.digest
            status := if result.effectsStatus == some "success"
                      then "success" else "failure"
            effectsStatus := result.effectsStatus },
         [⟨txBytes, [clientSignature, sponsorSig]⟩])
    | Except.error e =>
        (Except.error (ExecError.LedgerError e),
         [⟨txBytes, [clientSignature, sponsorSig]⟩])

/-! ## Access resolution — `server.ts` `hasAccess` and `client.ts`
`checkAccess` / `getAccessReceipts` -/

/-- The `fields` of an owned `AccessReceipt` object as returned by the
ledger query (`showContent: true`); the `ID` and address fields arrive as
strings, `vector<u8>` as a number array. -/
structure OwnedObjectFields where
  content_id : String
  content_title : List Nat
  price_paid : String
  purchaser : String
  timestamp : String
deriving DecidableEq, Repr

/-- `obj.data.content` of an owned object: its `dataType` tag and its
fields. -/
structure OwnedObjectData where
  dataType : String
  fields : OwnedObjectFields
deriving DecidableEq, Repr

/-- One entry of `getOwnedObjects(...).data`; `content` is `none` when
`obj.data?.content` is absent. -/
structure OwnedObject where
  objectId : String
  content : Option OwnedObjectData
deriving DecidableEq, Repr

/-- `AccessReceiptData` of `packages/shared/src/types.ts`. -/
structure AccessReceiptData where
  id : String
  contentId : String
  contentTitle : String
  pricePaid : String
  purchaser : String
  timestamp : String
deriving DecidableEq, Repr

/-- The `decodeString` helper of both SDKs: decode a `vector<u8>` number
array to text. -/
def decodeString (vec : List Nat) : String :=
  String.mk (vec.map Char.ofNat)

/-- `X402Server.hasAccess`: query the owned `AccessReceipt` objects of
`ownerAddress` (the query's outcome, `Except.error` on a thrown transport
error, is the `queryResult` argument) and report whether some receipt's
`content_id` equals `contentId`.  The `catch` branch of the source returns
`false`. -/
def hasAccess (queryResult : Except String (List OwnedObject))
    (contentId : String) : Bool :=
  match queryResult with
  | Except.error _ => false
  | Except.ok objects =>
    objects.any fun obj =>
      match obj.content with
      | some c => c.dataType == "moveObject" && c.fields.content_id == contentId
      | none => false

/-- The receipt record `X402Client.getAccessReceipts` builds from one
owned object (the source reads the fields behind a non-null assertion,
justified by the preceding filter; the `none` branch is unreachable
there). -/
def receiptOfObject (obj : OwnedObject) : AccessReceiptData :=
  match obj.content with
  | some c =>
      { id := obj.objectId
        contentId := c.fields.content_id
        contentTitle := decodeString c.fields.content_title
        pricePaid := c.fields.price_paid
        purchaser := c.fields.purchaser
        timestamp := c.fields.timestamp }
  | none =>
      { id := obj.objectId
        contentId := ""
        contentTitle := ""
        pricePaid := ""
        purchaser := ""
        timestamp := "" }

/-- `X402Client.getAccessReceipts`: keep the owned objects whose content
is a `moveObject` and map them to `AccessReceiptData`; a thrown query
(`Except.error`) is caught and becomes `[]`. -/
def getAccessReceipts (queryResult : Except String (List OwnedObject)) :
    List AccessReceiptData :=
  match queryResult with
  | Except.error _ => []
  | Except.ok objects =>
    ((objects.filter fun obj =>
        match obj.content with
        | some c => c.dataType == "moveObject"
        | none => false).map receiptOfObject)

/-- `X402Client.checkAccess`: some fetched receipt's `contentId` equals
the queried `contentId` (its own `catch` also returns `false`, but
`getAccessReceipts` never throws). -/
def checkAccess (queryResult : Except String (List OwnedObject))
    (contentId : String) : Bool :=
  (getAccessReceipts queryResult).any fun r => r.contentId == contentId

/-! ## Confirmation polling — `client.ts` `waitForTransaction`

The loop polls `getTransactionBlock` once per iteration, returns on a
terminal status, sleeps 1000 ms otherwise, and runs while the elapsed
time is below `timeoutMs`; with poll `k` occurring at elapsed time
`k * 1000` ms this bounds the iteration count by `⌈timeoutMs / 1000⌉`.
`poll k` is the outcome of the `k`-th query: `Except.error` when
`getTransactionBlock` throws (caught: keep waiting), otherwise
`effects?.status?.status`. -/

/-- The polling loop of `waitForTransaction`, with the remaining
iteration budget made explicit as fuel. -/
def waitLoop (poll : Nat → Except String (Option String)) :
    Nat → Nat → Except String Bool
  | _, 0 => Except.error "Transaction confirmation timeout"
  | k, fuel + 1 =>
    match poll k with
    | Except.ok (some "success") => Except.ok true
    | Except.ok (some "failure") => Except.ok false
    | _ => waitLoop poll (k + 1) fuel

/-- `X402Client.waitForTransaction` with its default `timeoutMs = 30000`:
at most `⌈timeoutMs / 1000⌉` polls at 1000 ms intervals, then the timeout
error. -/
def waitForTransaction (poll : Nat → Except String (Option String))
    (timeoutMs : Nat) : Except String Bool :=
  waitLoop poll 0 ((timeoutMs + 999) / 1000)

/-! ## A concrete envelope serializer

`tx.build({ client })` is the ledger client library's BCS serializer, an
external collaborator; the theorems below take it as an abstract
`serialize` parameter.  For closed witnesses we instantiate it with the
following concrete byte encoding of the `Transaction` structure. -/

/-- Length-prefixed character codes of a string. -/
def encodeString (s : String) : List Nat :=
  s.length :: s.toList.map Char.toNat

/-- Byte encoding of a PTB argument. -/
def encodeTxArg : TxArg → List Nat
  | TxArg.gas => [0]
  | TxArg.object id => 1 :: encodeString id
  | TxArg.result i => [2, i]

/-- Byte encoding of a PTB command. -/
def encodeCommand : TxCommand → List Nat
  | TxCommand.splitCoins src amounts =>
      0 :: (encodeTxArg src ++ (amounts.length :: (amounts.map encodeString).flatten))
  | TxCommand.moveCall target args =>
      1 :: (encodeString target ++ (args.length :: (args.map encodeTxArg).flatten))

/-- Byte encoding of an optional address. -/
def encodeOptionalAddr : Option String → List Nat
  | none => [0]
  | some s => 1 :: encodeString s

/-- A concrete serializer for transaction envelopes, standing in for the
external `tx.build`. -/
def serializeTx (tx : Transaction) : List Nat :=
  (tx.commands.map encodeCommand).flatten ++
    encodeOptionalAddr tx.sender ++ encodeOptionalAddr tx.gasOwner

/-! ## Theorems for the transaction builder and the 402 response -/

/-- C7: `buildPurchaseTransaction` produces an envelope whose command list
is, in order, a split of exactly `price` from the gas coin followed by a
`purchase_and_grant_access` call on the content object, the split coin and
the clock object; whose sender is bound to `buyerAddress`; and whose gas
owner is bound to the sponsor's address exactly when a sponsor keypair is
configured.  The builder is a pure function of its inputs: it performs no
signing and no ledger mutation. -/
theorem buildPurchaseTransaction_structure (srv : X402Server)
    (params : PurchaseParams) :
    (buildPurchaseTransaction srv params).commands =
      [TxCommand.splitCoins TxArg.gas [params.price],
       TxCommand.moveCall
         (srv.packageId ++ "::" ++ srv.moduleName ++ "::purchase_and_grant_access")
         [TxArg.object params.contentObjectId,
          TxArg.result 0,
          TxArg.object (params.clockObjectId.getD "0x6")]] ∧
    (buildPurchaseTransaction srv params).sender = some params.buyerAddress ∧
    (∀ kp, srv.sponsorKeypair = some kp →
      (buildPurchaseTransaction srv params).gasOwner = some kp.address) ∧
    (srv.sponsorKeypair = none →
      (buildPurchaseTransaction srv params).gasOwner = none) := by
  refine ⟨rfl, rfl, ?_, ?_⟩
  · intro kp h
    simp [buildPurchaseTransaction, h]
  · intro h
    simp [buildPurchaseTransaction, h]

/-- A sponsor keypair for closed witnesses. -/
def kpW : Ed25519Keypair :=
  { address := "0xsp", sign := fun _ => "sponsorsig" }

/-- A server configured with a sponsor keypair. -/
def srvW : X402Server :=
  createX402Server
    { packageId := "p", sponsorKeypair := some kpW, contentModule := none }

/-- A server configured without a sponsor keypair. -/
def srvN : X402Server :=
  createX402Server
    { packageId := "p", sponsorKeypair := none, contentModule := none }

/-- Concrete purchase parameters for closed witnesses. -/
def paramsW : PurchaseParams :=
  { contentObjectId := "0xa", price := "100", creator := "0xc",
    buyerAddress := "0xbuyer", clockObjectId := none }

/-- Closed witness for `buildPurchaseTransaction_structure`: with a
sponsor the gas owner is the sponsor's address, without one it is unset. -/
theorem buildPurchaseTransaction_structure_witness :
    (buildPurchaseTransaction srvW paramsW).gasOwner = some "0xsp" ∧
    (buildPurchaseTransaction srvN paramsW).gasOwner = none :=
  ⟨(buildPurchaseTransaction_structure srvW paramsW).2.2.1 kpW rfl,
   (buildPurchaseTransaction_structure srvN paramsW).2.2.2 rfl⟩

lemma base64Chunks_ne_nil (bytes : List Nat) (h : bytes ≠ []) :
    base64Chunks bytes ≠ [] := by
  match bytes with
  | [] => exact absurd rfl h
  | [b0] => simp [base64Chunks]
  | [b0, b1] => simp [base64Chunks]
  | b0 :: b1 :: b2 :: rest => simp [base64Chunks]

lemma base64Encode_ne_empty (bytes : List Nat) (h : bytes ≠ []) :
    base64Encode bytes ≠ "" := by
  intro he
  have hd : base64Chunks bytes = ([] : List Char) :=
    congrArg String.toList he
  exact base64Chunks_ne_nil bytes h hd

/-- C9: for every content item and buyer, `generateX402Response` returns
a response with status code exactly 402, `paymentRequired.amount` the
item's price, `paymentRequired.recipient` the item's creator,
`paymentRequired.transactionBytes` the (non-empty, for a serializer that
produces bytes) base64 serialization of the built envelope, and a
description derived from the item's title. -/
theorem generateX402Response_fields (srv : X402Server)
    (serialize : Transaction → List Nat) (content : ContentMetadata)
    (buyerAddress : String)
    (h : serialize
      (buildPurchaseTransaction srv (purchaseParamsOf content buyerAddress)) ≠ []) :
    (generateX402Response srv serialize content buyerAddress).statusCode = 402 ∧
    (generateX402Response srv serialize content buyerAddress).paymentRequired.amount
      = content.price ∧
    (generateX402Response srv serialize content buyerAddress).paymentRequired.recipient
      = content.creator ∧
    (generateX402Response srv serialize content buyerAddress).paymentRequired.transactionBytes
      = base64Encode (serialize
          (buildPurchaseTransaction srv (purchaseParamsOf content buyerAddress))) ∧
    (generateX402Response srv serialize content buyerAddress).paymentRequired.transactionBytes
      ≠ "" ∧
    (generateX402Response srv serialize content buyerAddress).paymentRequired.description
      = "Purchase access to: " ++ content.title := by
  refine ⟨rfl, rfl, rfl, rfl, ?_, rfl⟩
  exact base64Encode_ne_empty _ h

/-- Content metadata for closed witnesses. -/
def contentA : ContentMetadata :=
  { id := "0xa", title := "A", description := "", price := "100",
    contentUrl := "u", creator := "0xc" }

/-- Closed witness for `generateX402Response_fields`, with the concrete
serializer `serializeTx`. -/
theorem generateX402Response_fields_witness :
    (generateX402Response srvW serializeTx contentA "0xbuyer").statusCode = 402 ∧
    (generateX402Response srvW serializeTx contentA "0xbuyer").paymentRequired.amount
      = "100" ∧
    (generateX402Response srvW serializeTx contentA "0xbuyer").paymentRequired.recipient
      = "0xc" ∧
    (generateX402Response srvW serializeTx contentA "0xbuyer").paymentRequired.transactionBytes
      = base64Encode (serializeTx
          (buildPurchaseTransaction srvW (purchaseParamsOf contentA "0xbuyer"))) ∧
    (generateX402Response srvW serializeTx contentA "0xbuyer").paymentRequired.transactionBytes
      ≠ "" ∧
    (generateX402Response srvW serializeTx contentA "0xbuyer").paymentRequired.description
      = "Purchase access to: " ++ "A" :=
  generateX402Response_fields srvW serializeTx contentA "0xbuyer" (by decide)

/-! ## Theorems for the dual-signature submission path -/

/-- C6: a call to `sponsorAndExecute` on a server configured without a
sponsor keypair fails with `SponsorNotConfigured` and nothing is signed or
submitted to the ledger: the submission log is empty. -/
theorem sponsorAndExecute_requires_sponsor (srv : X402Server)
    (executeTx : List Nat → List String → Except String SuiTxResponse)
    (transactionBytes clientSignature clientPublicKey : String)
    (h : srv.sponsorKeypair = none) :
    sponsorAndExecute srv executeTx transactionBytes clientSignature
        clientPublicKey =
      (Except.error ExecError.SponsorNotConfigured, []) := by
  simp [sponsorAndExecute, h]

/-- Closed witness for `sponsorAndExecute_requires_sponsor`. -/
theorem sponsorAndExecute_requires_sponsor_witness :
    sponsorAndExecute srvN (fun _ _ => Except.ok ⟨"d", some "success"⟩)
        "AA==" "clientsig" "clientpk" =
      (Except.error ExecError.SponsorNotConfigured, []) :=
  sponsorAndExecute_requires_sponsor srvN
    (fun _ _ => Except.ok ⟨"d", some "success"⟩) "AA==" "clientsig" "clientpk" rfl

/-- C4, formalised: the execute operation checks that the submitted
envelope is the one built for the requested content's current price and
content reference, and does not submit an envelope whose decoded bytes
differ from that build. -/
def executeValidatesEnvelopeClaim : Prop :=
  ∀ (srv : X402Server)
    (executeTx : List Nat → List String → Except String SuiTxResponse)
    (content : ContentMetadata) (buyerAddress b64 sig pk : String),
    base64Decode b64 ≠
      serializeTx (buildPurchaseTransaction srv
        (purchaseParamsOf content buyerAddress)) →
    (sponsorAndExecute srv executeTx b64 sig pk).2 = []

/-- A second content item, with a different id and price, used to build an
envelope that does not belong to `contentA`. -/
def contentB : ContentMetadata :=
  { id := "0xb", title := "B", description := "", price := "200",
    contentUrl := "u", creator := "0xc" }

/-- The base64 bytes of an envelope built for `contentB`. -/
def b64B : String :=
  base64Encode (serializeTx
    (buildPurchaseTransaction srvW (purchaseParamsOf contentB "0xbuyer")))

/-- C4 counterexample: `sponsorAndExecute` submits an envelope that was
built for `contentB` (price 200) on a request for `contentA` (price 100):
its submission log is non-empty although the decoded bytes differ from the
envelope built for `contentA`'s current price and content reference. -/
theorem sponsorAndExecute_validation_cex : ¬ executeValidatesEnvelopeClaim := by
  intro h
  have hc := h srvW (fun _ _ => Except.ok ⟨"d", some "success"⟩) contentA
    "0xbuyer" b64B "clientsig" "clientpk" (by decide)
  exact absurd hc (by decide)

/-- C4 (amended): `sponsorAndExecute` performs no validation of the
envelope against any content id or price — whenever a sponsor is
configured it co-signs and submits exactly the decoded supplied bytes,
whatever they are. -/
theorem sponsorAndExecute_submits_unvalidated (srv : X402Server)
    (executeTx : List Nat → List String → Except String SuiTxResponse)
    (b64 sig pk : String) (kp : Ed25519Keypair)
    (h : srv.sponsorKeypair = some kp) :
    (sponsorAndExecute srv executeTx b64 sig pk).2 =
      [⟨base64Decode b64, [sig, kp.sign (base64Decode b64)]⟩] := by
  simp only [sponsorAndExecute, h]
  cases hE : executeTx (base64Decode b64) [sig, kp.sign (base64Decode b64)] with
  | ok r => simp [hE]
  | error e => simp [hE]

/-- Closed witness for `sponsorAndExecute_submits_unvalidated`: the
foreign envelope `b64B` is decoded, co-signed and submitted as-is. -/
theorem sponsorAndExecute_submits_unvalidated_witness :
    (sponsorAndExecute srvW (fun _ _ => Except.ok ⟨"d", some "success"⟩)
        b64B "clientsig" "clientpk").2 =
      [⟨base64Decode b64B, ["clientsig", kpW.sign (base64Decode b64B)]⟩] :=
  sponsorAndExecute_submits_unvalidated srvW
    (fun _ _ => Except.ok ⟨"d", some "success"⟩) b64B "clientsig" "clientpk"
    kpW rfl

/-! ## Theorems for access resolution -/

/-- C5, formalised: `hasAccess` surfaces a failed ownership query as
something other than the plain `false` it returns for "no matching
receipt owned". -/
def accessQueryFailureDistinguishedClaim : Prop :=
  ∀ (e contentId : String), hasAccess (Except.error e) contentId ≠ false

/-- C5 counterexample: a query that fails in transport
(`Except.error "transport error"`) makes `hasAccess` return `false`, the
same value as "no matching receipt owned" — the failure is not surfaced
as a retryable condition. -/
theorem hasAccess_distinguishes_cex : ¬ accessQueryFailureDistinguishedClaim := by
  intro h
  exact h "transport error" "0xa" rfl

/-- C5 (amended): both `hasAccess` and `checkAccess` collapse a failed
ownership query to `false`, indistinguishable from a legitimate "no
matching receipt owned". -/
theorem hasAccess_error_collapsed :
    ∀ (e contentId : String),
      hasAccess (Except.error e) contentId = false ∧
      checkAccess (Except.error e) contentId = false := by
  intro e contentId
  exact ⟨rfl, rfl⟩

lemma access_any_eq (objects : List OwnedObject) (contentId : String) :
    ((objects.filter fun obj =>
        match obj.content with
        | some c => c.dataType == "moveObject"
        | none => false).map receiptOfObject).any
          (fun rec => rec.contentId == contentId) =
      objects.any fun obj =>
        match obj.content with
        | some c => c.dataType == "moveObject" && c.fields.content_id == contentId
        | none => false := by
  induction objects with
  | nil => rfl
  | cons o t ih =>
    cases ho : o.content with
    | none =>
      simpa [List.filter_cons, List.any_cons, ho] using ih
    | some c =>
      by_cases hdt : c.dataType = "moveObject"
      · simp [List.filter_cons, List.any_cons, ho, hdt, receiptOfObject, ih]
      · simp [List.filter_cons, List.any_cons, ho, hdt, receiptOfObject, ih]

/-- C10: the server-side and client-side access checks compute the same
predicate.  For the same query outcome and content id, `hasAccess` and
`checkAccess` return equal booleans; on a successful query they are `true`
exactly when some owned receipt object is a `moveObject` whose
`content_id` field equals the queried content id; and on a thrown query
both return `false`. -/
theorem hasAccess_checkAccess_agree
    (queryResult : Except String (List OwnedObject)) (contentId : String) :
    hasAccess queryResult contentId = checkAccess queryResult contentId ∧
    (∀ objects, queryResult = Except.ok objects →
      (hasAccess queryResult contentId = true ↔
        ∃ obj ∈ objects, ∃ c, obj.content = some c ∧
          c.dataType = "moveObject" ∧ c.fields.content_id = contentId)) ∧
    (∀ e, queryResult = Except.error e →
      hasAccess queryResult contentId = false ∧
      checkAccess queryResult contentId = false) := by
  refine ⟨?_, ?_, ?_⟩
  · cases queryResult with
    | error e => rfl
    | ok objects =>
      exact (access_any_eq objects contentId).symm
  · intro objects hq
    subst hq
    show (List.any objects _) = true ↔ _
    rw [List.any_eq_true]
    constructor
    · rintro ⟨obj, hmem, hp⟩
      cases ho : obj.content with
      | none => rw [ho] at hp; exact absurd hp (by simp)
      | some c =>
        rw [ho] at hp
        simp only [Bool.and_eq_true, beq_iff_eq] at hp
        exact ⟨obj, hmem, c, ho, hp.1, hp.2⟩
    · rintro ⟨obj, hmem, c, ho, hdt, hcid⟩
      exact ⟨obj, hmem, by simp [ho, hdt, hcid]⟩
  · intro e hq
    subst hq
    exact ⟨rfl, rfl⟩

/-- An owned `AccessReceipt` object for closed witnesses. -/
def objW : OwnedObject :=
  { objectId := "0xr"
    content := some
      { dataType := "moveObject"
        fields :=
          { content_id := "0xa", content_title := [65], price_paid := "100",
            purchaser := "0xbuyer", timestamp := "1" } } }

/-- Closed witness for `hasAccess_checkAccess_agree` at a one-receipt
query and a failed query. -/
theorem hasAccess_checkAccess_agree_witness :
    (hasAccess (Except.ok [objW]) "0xa" = true ↔
      ∃ obj ∈ [objW], ∃ c, obj.content = some c ∧
        c.dataType = "moveObject" ∧ c.fields.content_id = "0xa") ∧
    (hasAccess (Except.error "boom") "0xa" = false ∧
      checkAccess (Except.error "boom") "0xa" = false) :=
  ⟨(hasAccess_checkAccess_agree (Except.ok [objW]) "0xa").2.1 [objW] rfl,
   (hasAccess_checkAccess_agree (Except.error "boom") "0xa").2.2 "boom" rfl⟩

/-! ## Discrete-time facts about the confirmation-polling model

These record the embeddable behaviour of `waitForTransaction` (bounded
polling, terminal statuses, timeout error); the wall-clock interval and
the cancellability of an abandoned in-flight loop live in the host
runtime and are outside this embedding. -/

/-- With the default 30000 ms timeout, a transaction that is never found
yields the confirmation-timeout error rather than an indefinite wait. -/
theorem waitForTransaction_timeout_example :
    waitForTransaction (fun _ => Except.error "not found") 30000 =
      Except.error "Transaction confirmation timeout" := by rfl

/-- A transaction whose status becomes `success` on the fourth poll
yields `true`. -/
theorem waitForTransaction_success_example :
    waitForTransaction
      (fun k => if k < 3 then Except.ok none else Except.ok (some "success"))
      30000 = Except.ok true := by rfl

/-- A transaction whose status becomes `failure` on the fourth poll
yields `false`. -/
theorem waitForTransaction_failure_example :
    waitForTransaction
      (fun k => if k < 3 then Except.error "pending" else Except.ok (some "failure"))
      30000 = Except.ok false := by rfl
